import Mathlib

/-!
# Payroll computation engine: a shallow embedding

This file embeds the payroll, annual-leave and severance calculators of
`app.py` (a Korean payroll/HR system) in Lean 4 and proves properties of the
embedding.

Conventions of the embedding:
* Currency amounts are `ℤ`; Python float arithmetic on currency values is
  embedded as exact rational arithmetic over `ℚ` (the source intends exact
  real arithmetic; all constants are decimal literals).
* Python `int(x)` (truncation toward zero) is embedded as `truncQ`.
* Python `datetime.date` values are `Date` records; `date.toordinal()` is
  `toOrdinal` (proleptic Gregorian day number, Jan 1 of year 1 = day 1),
  so `(d2 - d1).days = toOrdinal d2 - toOrdinal d1`.
* The pay-month string is a `List Char`; Python's
  `year, month = map(int, pay_month.split('-'))` is `parsePayMonth`,
  returning `none` where Python raises `ValueError`.
* Functions whose Python bodies catch all exceptions and return a default
  are embedded total, with the handled error paths made explicit.
-/

/-- Python `int(x)` on a rational: truncation toward zero. -/
def truncQ (q : ℚ) : ℤ := if 0 ≤ q then ⌊q⌋ else ⌈q⌉

/-- Python `round(x, 2)`: rounding to a multiple of 1/100.  Mathlib `round`
rounds ties up while Python rounds ties to even; no value considered in this
file sits on a tie. -/
def round2 (q : ℚ) : ℚ := (round (q * 100) : ℤ) / 100

/-! ## Dates (`datetime.date`) -/

/-- A calendar date, as Python's `datetime.date`. -/
structure Date where
  year : ℤ
  month : ℤ
  day : ℤ
deriving DecidableEq

/-- Gregorian leap-year test. -/
def isLeap (y : ℤ) : Bool := (y % 4 == 0 && !(y % 100 == 0)) || (y % 400 == 0)

/-- Days in the months preceding month `m` of a non-leap year. -/
def cumDays (m : ℤ) : ℤ :=
  if m ≤ 1 then 0 else if m = 2 then 31 else if m = 3 then 59 else if m = 4 then 90
  else if m = 5 then 120 else if m = 6 then 151 else if m = 7 then 181 else if m = 8 then 212
  else if m = 9 then 243 else if m = 10 then 273 else if m = 11 then 304 else 334

/-- Python `date.toordinal()`: the proleptic Gregorian day number of a valid
date (year ≥ 1), with 0001-01-01 ↦ 1.  All divisions are on non-negative
numerators, where Lean's integer division agrees with Python's floor
division. -/
def toOrdinal (d : Date) : ℤ :=
  365 * (d.year - 1) + (d.year - 1) / 4 - (d.year - 1) / 100 + (d.year - 1) / 400
    + cumDays d.month + (if 3 ≤ d.month ∧ isLeap d.year then 1 else 0) + d.day

/-! ## Rate table (module constants `INSURANCE_RATES`, `PENSION_LIMITS`) -/

def nationalPensionRate : ℚ := 45/1000
def healthInsuranceRate : ℚ := 3545/100000
def longTermCareRate : ℚ := 1295/10000
def employmentInsuranceRate : ℚ := 9/1000
def pensionMin : ℤ := 400000
def pensionMax : ℤ := 6370000

/-! ## Income-tax engine (`calculate_correct_taxes_for_payroll` and helpers) -/

/-- Source `calculate_salary_income_deduction(annual_gross_salary)`: the five-tier
2025 salary-income deduction schedule. -/
def calculate_salary_income_deduction (g : ℤ) : ℤ :=
  if g ≤ 5000000 then truncQ ((g:ℚ) * (7/10))
  else if g ≤ 15000000 then truncQ (3500000 + ((g:ℚ) - 5000000) * (4/10))
  else if g ≤ 45000000 then truncQ (7500000 + ((g:ℚ) - 15000000) * (15/100))
  else if g ≤ 100000000 then truncQ (12000000 + ((g:ℚ) - 45000000) * (5/100))
  else truncQ (14750000 + ((g:ℚ) - 100000000) * (2/100))

/-- Source `calculate_personal_deductions(family_count)`: 1,500,000 per household
member. -/
def calculate_personal_deductions (f : ℤ) : ℤ := f * 1500000

/-- The seven finite `(upper bound, marginal rate)` brackets of
`calculate_correct_progressive_income_tax`; the eighth bracket
`(float('inf'), 0.45)` is the terminal case of `progressiveTaxGo`. -/
def taxBrackets : List (ℚ × ℚ) :=
  [(14000000, 6/100), (50000000, 15/100), (88000000, 24/100), (150000000, 35/100),
   (300000000, 38/100), (500000000, 40/100), (1000000000, 42/100)]

/-- The bracket-walking loop of `calculate_correct_progressive_income_tax`:
`prev` is the previous bracket bound; the empty list is the final
`(float('inf'), 0.45)` bracket, which always absorbs the remainder. -/
def progressiveTaxGo : ℚ → ℚ → List (ℚ × ℚ) → ℚ
  | prev, ti, [] => (ti - prev) * (45/100)
  | prev, ti, (l, r) :: rest =>
      if ti ≤ l then (ti - prev) * r else (l - prev) * r + progressiveTaxGo l ti rest

/-- Source `calculate_correct_progressive_income_tax(taxable_income)`. -/
def calculate_correct_progressive_income_tax (ti : ℚ) : ℚ :=
  if ti ≤ 0 then 0 else progressiveTaxGo 0 ti taxBrackets

/-- Source `calculate_child_tax_credit(family_count)`: 150,000 per year per household
member beyond the first. -/
def calculate_child_tax_credit (f : ℤ) : ℤ := max 0 (f - 1) * 150000

/-- The dictionary returned by `calculate_correct_taxes_for_payroll`
(the `local_tax` key duplicates `resident_tax` and is omitted). -/
structure TaxResult where
  income_tax : ℤ
  resident_tax : ℤ
  taxable_income : ℤ
  effective_rate : ℚ
  salary_income_deduction : ℤ
  personal_deductions : ℤ
  child_tax_credit : ℤ
  annual_income_tax_before_credit : ℚ
  annual_income_tax_after_credit : ℚ
deriving DecidableEq

/-- Source `calculate_correct_taxes_for_payroll(monthly_salary, family_count)`:
annualized progressive taxation with salary-income deduction, personal
deductions, child tax credit, and 10% resident (local) tax. -/
def calculate_correct_taxes_for_payroll (monthly_salary f : ℤ) : TaxResult :=
  let annual_gross := monthly_salary * 12
  let sid := calculate_salary_income_deduction annual_gross
  let salary_income := annual_gross - sid
  let pd := calculate_personal_deductions f
  let taxable := max 0 (salary_income - pd)
  let beforeCredit := calculate_correct_progressive_income_tax (taxable : ℚ)
  let credit := calculate_child_tax_credit f
  let afterCredit := max 0 (beforeCredit - (credit : ℚ))
  let annual_local := truncQ (afterCredit * (1/10))
  let mit := truncQ (afterCredit / 12)
  let mlt := truncQ ((annual_local : ℚ) / 12)
  { income_tax := mit
    resident_tax := mlt
    taxable_income := taxable
    effective_rate := if 0 < monthly_salary then ((mit : ℚ) + (mlt : ℚ)) / (monthly_salary : ℚ) * 100 else 0
    salary_income_deduction := sid
    personal_deductions := pd
    child_tax_credit := credit
    annual_income_tax_before_credit := beforeCredit
    annual_income_tax_after_credit := afterCredit }

/-! ## Pay-month parsing (`year, month = map(int, pay_month.split('-'))`) -/

/-- Python `str.split('-')` on a character list. -/
def splitDashAux (cur : List Char) : List Char → List (List Char)
  | [] => [cur.reverse]
  | c :: rest => if c = '-' then cur.reverse :: splitDashAux [] rest else splitDashAux (c :: cur) rest

/-- Python `str.split('-')`. -/
def splitDash (cs : List Char) : List (List Char) := splitDashAux [] cs

/-- Python `int(s)` on a string: optional surrounding whitespace, optional
sign, a non-empty run of ASCII digits.  (Python additionally allows
underscore digit grouping and non-ASCII digits; neither occurs in any input
considered here.)  Returns `none` where Python raises `ValueError`. -/
def pyParseInt (cs : List Char) : Option ℤ :=
  let t := ((cs.dropWhile Char.isWhitespace).reverse.dropWhile Char.isWhitespace).reverse
  let signed : Bool × List Char :=
    match t with
    | '-' :: r => (true, r)
    | '+' :: r => (false, r)
    | r => (false, r)
  if signed.2 ≠ [] ∧ signed.2.all Char.isDigit then
    some ((if signed.1 then -1 else 1) *
      (signed.2.foldl (fun a c => 10 * a + ((c.toNat : ℤ) - 48)) 0))
  else none

/-- Source `year, month = map(int, pay_month.split('-'))`: succeeds exactly when the
split yields two parts and both parse as integers; otherwise Python raises
`ValueError`. -/
def parsePayMonth (cs : List Char) : Option (ℤ × ℤ) :=
  match splitDash cs with
  | [a, b] =>
    match pyParseInt a, pyParseInt b with
    | some y, some m => some (y, m)
    | _, _ => none
  | _ => none

/-- A month that Python's `datetime` constructor accepts in
`get_workdays_in_month` / `get_employee_deductions`. -/
def validYM (y m : ℤ) : Prop := 1 ≤ y ∧ y ≤ 9999 ∧ 1 ≤ m ∧ m ≤ 12

instance (y m : ℤ) : Decidable (validYM y m) := by unfold validYM; infer_instance

/-! ## Workdays and attendance deductions -/

/-- Source `get_workdays_in_month(year, month)`: weekdays (Mon–Fri) from the first to
the last day of the month.  Day `k` (0-based) of the month has ordinal
`first + k`, and an ordinal `o` falls on weekday `(o - 1) % 7` (Monday = 0),
matching Python's `date.weekday()`.  The `except` branch of the source
returns the fixed fallback 22 when `datetime` rejects the year/month. -/
def get_workdays_in_month (y m : ℤ) : ℤ :=
  if validYM y m then
    let firstO := toOrdinal ⟨y, m, 1⟩
    let lastO := if m < 12 then toOrdinal ⟨y, m + 1, 1⟩ - 1 else toOrdinal ⟨y, 12, 31⟩
    ((List.range (lastO + 1 - firstO).toNat).countP
      (fun k : ℕ => decide ((firstO + (k : ℤ) - 1) % 7 < 5)) : ℤ)
  else 22

/-- Source `calculate_unpaid_leave_deduction(base_salary, unpaid_days, year, month)`:
`int(base_salary / workdays * unpaid_days)`, 0 when no unpaid day. -/
def calculate_unpaid_leave_deduction (base unpaid_days y m : ℤ) : ℤ :=
  if unpaid_days ≤ 0 then 0
  else truncQ ((base : ℚ) / (get_workdays_in_month y m : ℚ) * (unpaid_days : ℚ))

/-- Source `calculate_lateness_deduction(base_salary, late_hours, year, month)`:
`int(base_salary / (workdays * 8) * late_hours)`, 0 when no late hour. -/
def calculate_lateness_deduction (base : ℤ) (late_hours : ℚ) (y m : ℤ) : ℤ :=
  if late_hours ≤ 0 then 0
  else truncQ ((base : ℚ) / ((get_workdays_in_month y m : ℚ) * 8) * late_hours)

/-- The closed set of attendance status tags. -/
inductive AttendanceStatus
  | normal | late | earlyLeave | annualLeave | absent | paidLeave | unpaidLeave
deriving DecidableEq

/-- One attendance row as consumed by `get_employee_deductions`: the status
tag, the clock-in time parsed from its `'%H:%M:%S'` string (absent or
unparseable rows carry `none` and are skipped), and the actual hours worked. -/
structure AttendanceRecord where
  status : AttendanceStatus
  clock_in : Option (ℤ × ℤ × ℤ)
  actual_hours : ℚ
deriving DecidableEq

/-- Python `datetime.time` comparison `t > s` (lexicographic on
hour, minute, second). -/
def timeLater (t s : ℤ × ℤ × ℤ) : Bool :=
  decide (s.1 < t.1 ∨ (s.1 = t.1 ∧ (s.2.1 < t.2.1 ∨ (s.2.1 = t.2.1 ∧ s.2.2 < t.2.2))))

/-- Late hours contributed by one record of the `'지각'` (late) loop: minutes
past the 09:00 standard start, converted to hours, but only when the excess
is at least 30 minutes. -/
def lateContribution (r : AttendanceRecord) : ℚ :=
  if r.status = .late then
    match r.clock_in with
    | none => 0
    | some t =>
      if timeLater t (9, 0, 0) then
        let late_minutes := t.1 * 60 + t.2.1 - (9 * 60 + 0)
        if 30 ≤ late_minutes then (late_minutes : ℚ) / 60 else 0
      else 0
  else 0

/-- Late hours contributed by one record of the `'조퇴'` (early-leave) loop:
the shortfall from the standard 8-hour day. -/
def earlyLeaveContribution (r : AttendanceRecord) : ℚ :=
  if r.status = .earlyLeave then (if r.actual_hours < 8 then 8 - r.actual_hours else 0) else 0

/-- The accumulated `late_hours` of the month before rounding. -/
def lateHoursOfMonth (recs : List AttendanceRecord) : ℚ :=
  (recs.map lateContribution).sum + (recs.map earlyLeaveContribution).sum

/-- The dictionary returned by `get_employee_deductions` (the
`total_attendance_deduction` key, always 0 there, is omitted).  The
`unpaid_deduction` / `lateness_deduction` slots are returned as 0 and filled
in later by `calculate_comprehensive_payroll`. -/
structure DeductionBundle where
  unpaid_days : ℤ
  late_hours : ℚ
  unpaid_deduction : ℤ
  lateness_deduction : ℤ
deriving DecidableEq

def zeroBundle : DeductionBundle := ⟨0, 0, 0, 0⟩

/-- Source `get_employee_deductions(supabase, employee_id, pay_month)`, given the
month's attendance rows (the date-range query result).  A malformed or
invalid pay month trips the function's own `except` branch, which returns
the all-zero dictionary; an empty row set returns the all-zero dictionary;
otherwise `unpaid_days` counts unpaid-leave rows and `late_hours` is the
rounded sum of the late and early-leave contributions. -/
def get_employee_deductions (recs : List AttendanceRecord) (pay_month : List Char) :
    DeductionBundle :=
  match parsePayMonth pay_month with
  | none => zeroBundle
  | some (y, m) =>
    if validYM y m then
      if recs = [] then zeroBundle
      else
        { unpaid_days := (recs.countP (fun r => decide (r.status = .unpaidLeave)) : ℤ)
          late_hours := round2 (lateHoursOfMonth recs)
          unpaid_deduction := 0
          lateness_deduction := 0 }
    else zeroBundle

/-! ## Payroll assembly (`calculate_comprehensive_payroll`) -/

/-- The employee fields the payroll computation reads:
`int(employee_data.get('base_salary', 0))` and
`int(employee_data.get('family_count', 1))`. -/
structure Employee where
  base_salary : ℤ
  family_count : ℤ
deriving DecidableEq

/-- The fixed enumerated allowance set. -/
structure Allowances where
  performance_bonus : ℤ
  attendance_allowance : ℤ
  meal_allowance : ℤ
  holiday_allowance : ℤ
  position_allowance : ℤ
  special_duty_allowance : ℤ
  overtime_allowance : ℤ
  skill_allowance : ℤ
  annual_leave_allowance : ℤ
  other_allowance : ℤ
deriving DecidableEq

/-- The default allowance dictionary built when `allowances is None`:
everything 0 except the standard meal allowance of 130,000. -/
def defaultAllowances : Allowances := ⟨0, 0, 130000, 0, 0, 0, 0, 0, 0, 0⟩

/-- An all-zero allowance set (used as a concrete input). -/
def zeroAllowances : Allowances := ⟨0, 0, 0, 0, 0, 0, 0, 0, 0, 0⟩

/-- Python `sum(allowances.values())`. -/
def sumAllowances (a : Allowances) : ℤ :=
  a.performance_bonus + a.attendance_allowance + a.meal_allowance + a.holiday_allowance
    + a.position_allowance + a.special_duty_allowance + a.overtime_allowance
    + a.skill_allowance + a.annual_leave_allowance + a.other_allowance

/-- The payroll dictionary built by `calculate_comprehensive_payroll`
(identity and workflow keys `employee_id`, `pay_month`, `is_paid`,
`pay_date`, never read by the computation, are omitted). -/
structure PayrollResult where
  base_salary : ℤ
  performance_bonus : ℤ
  attendance_allowance : ℤ
  meal_allowance : ℤ
  holiday_allowance : ℤ
  position_allowance : ℤ
  special_duty_allowance : ℤ
  overtime_allowance : ℤ
  skill_allowance : ℤ
  annual_leave_allowance : ℤ
  other_allowance : ℤ
  adjusted_salary : ℤ
  unpaid_days : ℤ
  unpaid_deduction : ℤ
  late_hours : ℚ
  lateness_deduction : ℤ
  national_pension : ℤ
  health_insurance : ℤ
  long_term_care : ℤ
  employment_insurance : ℤ
  income_tax : ℤ
  resident_tax : ℤ
  total_deductions : ℤ
  net_pay : ℤ
  taxable_income : ℤ
  effective_tax_rate : ℚ
  salary_income_deduction : ℤ
  personal_deductions : ℤ
  child_tax_credit : ℤ
  annual_income_tax_before_credit : ℚ
  annual_income_tax_after_credit : ℚ
deriving DecidableEq

/-- The body of `calculate_comprehensive_payroll` past the guards: the
deduction amounts, gross/adjusted pay, the four insurance withholdings, the
tax call, and the assembled payroll dictionary. -/
def payrollBody (base fam : ℤ) (alw : Allowances) (ded : DeductionBundle) (y m : ℤ) :
    PayrollResult :=
  let unpaid_ded := calculate_unpaid_leave_deduction base ded.unpaid_days y m
  let late_ded := calculate_lateness_deduction base ded.late_hours y m
  let total_allowances := sumAllowances alw
  let gross_pay := base + total_allowances
  let adjusted_salary := max 0 (gross_pay - unpaid_ded - late_ded)
  let pension_base := min (max adjusted_salary pensionMin) pensionMax
  let national_pension := truncQ ((pension_base : ℚ) * nationalPensionRate)
  let health_insurance := truncQ ((adjusted_salary : ℚ) * healthInsuranceRate)
  let long_term_care := truncQ ((health_insurance : ℚ) * longTermCareRate)
  let employment_insurance := truncQ ((adjusted_salary : ℚ) * employmentInsuranceRate)
  let tax := calculate_correct_taxes_for_payroll adjusted_salary fam
  let total_deductions := national_pension + health_insurance + long_term_care
    + employment_insurance + tax.income_tax + tax.resident_tax
    + unpaid_ded + late_ded
  { base_salary := base
    performance_bonus := alw.performance_bonus
    attendance_allowance := alw.attendance_allowance
    meal_allowance := alw.meal_allowance
    holiday_allowance := alw.holiday_allowance
    position_allowance := alw.position_allowance
    special_duty_allowance := alw.special_duty_allowance
    overtime_allowance := alw.overtime_allowance
    skill_allowance := alw.skill_allowance
    annual_leave_allowance := alw.annual_leave_allowance
    other_allowance := alw.other_allowance
    adjusted_salary := adjusted_salary
    unpaid_days := ded.unpaid_days
    unpaid_deduction := unpaid_ded
    late_hours := ded.late_hours
    lateness_deduction := late_ded
    national_pension := national_pension
    health_insurance := health_insurance
    long_term_care := long_term_care
    employment_insurance := employment_insurance
    income_tax := tax.income_tax
    resident_tax := tax.resident_tax
    total_deductions := total_deductions
    net_pay := gross_pay - total_deductions
    taxable_income := tax.taxable_income
    effective_tax_rate := tax.effective_rate
    salary_income_deduction := tax.salary_income_deduction
    personal_deductions := tax.personal_deductions
    child_tax_credit := tax.child_tax_credit
    annual_income_tax_before_credit := tax.annual_income_tax_before_credit
    annual_income_tax_after_credit := tax.annual_income_tax_after_credit }

/-- The conditional
`get_employee_deductions(...) if supabase and employee_id else {...: 0}` of
`calculate_comprehensive_payroll`: `attendance = some recs` models a live
attendance source (`supabase` and `employee_id` present) returning the
month's rows `recs`; `attendance = none` models the `supabase is None` path,
whose deduction bundle is all zeros. -/
def attendanceDeductions (attendance : Option (List AttendanceRecord))
    (pay_month : List Char) : DeductionBundle :=
  match attendance with
  | some recs => get_employee_deductions recs pay_month
  | none => zeroBundle

/-- Source `calculate_comprehensive_payroll(employee_data, pay_month, supabase, allowances)`.

A non-positive base salary returns `None` (the short-circuit at the top of
the function).  A pay month that `map(int, pay_month.split('-'))` rejects
raises `ValueError`, which the function-wide `except` turns into `st.error`
plus `return None`; this is the `none` of the second branch. -/
def calculate_comprehensive_payroll (emp : Employee) (pay_month : List Char)
    (attendance : Option (List AttendanceRecord)) (allowances : Option Allowances) :
    Option PayrollResult :=
  if emp.base_salary ≤ 0 then none
  else
    let alw := allowances.getD defaultAllowances
    let ded := attendanceDeductions attendance pay_month
    match parsePayMonth pay_month with
    | none => none
    | some (y, m) => some (payrollBody emp.base_salary emp.family_count alw ded y m)

/-! ## Annual leave (`calculate_annual_leave`) -/

/-- Source `calculate_annual_leave(hire_date, current_date)`: below one year of
tenure (days / 365.25), the calendar-month difference floored at 0; from one
year on, 15 days plus one per two further full years, capped at +10. -/
def calculate_annual_leave (hire cur : Date) : ℤ :=
  let work_days := toOrdinal cur - toOrdinal hire
  let work_years : ℚ := (work_days : ℚ) / (36525/100)
  if work_years < 1 then
    max 0 ((cur.year - hire.year) * 12 + (cur.month - hire.month))
  else
    15 + min ⌊(work_years - 1) / 2⌋ 10

/-! ## Severance pay (`calculate_severance_pay`) -/

/-- The dictionary returned by `calculate_severance_pay`.  The source's
`message` string is represented by `eligible`: the sub-one-year branch
returns the ineligibility message (`eligible = false`), the other branch the
computed-severance message (`eligible = true`). -/
structure SeveranceResult where
  work_years : ℚ
  work_days : ℤ
  average_monthly_wage : ℚ
  daily_average_wage : ℚ
  severance_pay : ℚ
  eligible : Bool
deriving DecidableEq

/-- Source `calculate_severance_pay(hire_date, resignation_date, recent_salaries)`:
below one year of tenure, no severance; otherwise 30 days of average daily
wage per completed year, the partial final year not prorated.  The source
does not round the severance amount (`int()` is applied to `work_years`
only), so `severance_pay` is a rational. -/
def calculate_severance_pay (hire res : Date) (recent : List ℤ) : SeveranceResult :=
  let work_days := toOrdinal res - toOrdinal hire
  let work_years : ℚ := (work_days : ℚ) / (36525/100)
  if work_years < 1 then
    { work_years := work_years, work_days := work_days, average_monthly_wage := 0
      daily_average_wage := 0, severance_pay := 0, eligible := false }
  else
    let average_monthly_wage : ℚ :=
      if recent ≠ [] then ((recent.sum : ℤ) : ℚ) / (recent.length : ℚ) else 0
    let daily_average_wage := average_monthly_wage / 30
    { work_years := work_years, work_days := work_days
      average_monthly_wage := average_monthly_wage
      daily_average_wage := daily_average_wage
      severance_pay := (truncQ work_years : ℚ) * 30 * daily_average_wage
      eligible := true }

/-! ## Basic facts about the embedding primitives -/

theorem truncQ_eq_floor {q : ℚ} (h : 0 ≤ q) : truncQ q = ⌊q⌋ := if_pos h

theorem truncQ_nonneg {q : ℚ} (h : 0 ≤ q) : 0 ≤ truncQ q := by
  rw [truncQ_eq_floor h]; exact Int.floor_nonneg.mpr h

/-- Unfolding `calculate_comprehensive_payroll` on the success path. -/
theorem payroll_eq_some (emp : Employee) (pm : List Char)
    (att : Option (List AttendanceRecord)) (alw : Option Allowances) (y m : ℤ)
    (h1 : ¬ emp.base_salary ≤ 0) (h2 : parsePayMonth pm = some (y, m)) :
    calculate_comprehensive_payroll emp pm att alw =
      some (payrollBody emp.base_salary emp.family_count (alw.getD defaultAllowances)
        (attendanceDeductions att pm) y m) := by
  unfold calculate_comprehensive_payroll
  rw [if_neg h1, h2]

/-- Inversion: a produced payroll result comes from `payrollBody` on a
positive base salary and a successfully parsed pay month. -/
theorem payroll_some_inv {emp : Employee} {pm : List Char}
    {att : Option (List AttendanceRecord)} {alw : Option Allowances} {r : PayrollResult}
    (h : calculate_comprehensive_payroll emp pm att alw = some r) :
    0 < emp.base_salary ∧ ∃ y m, parsePayMonth pm = some (y, m) ∧
      r = payrollBody emp.base_salary emp.family_count (alw.getD defaultAllowances)
        (attendanceDeductions att pm) y m := by
  unfold calculate_comprehensive_payroll at h
  split at h
  · exact absurd h (by simp)
  next hb =>
    refine ⟨by omega, ?_⟩
    rcases hp : parsePayMonth pm with _ | ⟨y, m⟩
    · rw [hp] at h; exact absurd h (by simp)
    · rw [hp] at h
      exact ⟨y, m, rfl, (Option.some.injEq _ _ ▸ h).symm⟩

/-! ## C1: total-deductions and net-pay invariant -/

/-- C1.  Every payroll result produced by `calculate_comprehensive_payroll`
(hence with `base_salary > 0`) has `total_deductions` equal to the sum of its
eight deduction components, and `net_pay = gross_pay - total_deductions`
where `gross_pay` is the base salary plus the sum of all allowance amounts. -/
theorem payroll_total_deductions_and_net_pay_invariant
    (emp : Employee) (pm : List Char) (att : Option (List AttendanceRecord))
    (alw : Option Allowances) (r : PayrollResult)
    (h : calculate_comprehensive_payroll emp pm att alw = some r) :
    0 < emp.base_salary ∧
    r.total_deductions = r.national_pension + r.health_insurance + r.long_term_care
      + r.employment_insurance + r.income_tax + r.resident_tax
      + r.unpaid_deduction + r.lateness_deduction ∧
    r.net_pay = (emp.base_salary + sumAllowances (alw.getD defaultAllowances))
      - r.total_deductions := by
  obtain ⟨hb, y, m, -, hr⟩ := payroll_some_inv h
  subst hr
  exact ⟨hb, rfl, rfl⟩

theorem payroll_total_deductions_and_net_pay_invariant_witness :
    ∃ r, calculate_comprehensive_payroll ⟨3000000, 1⟩ ("2024-01".toList) none none = some r ∧
      r.total_deductions = r.national_pension + r.health_insurance + r.long_term_care
        + r.employment_insurance + r.income_tax + r.resident_tax
        + r.unpaid_deduction + r.lateness_deduction ∧
      r.net_pay = (3000000 + sumAllowances defaultAllowances) - r.total_deductions := by
  have hp := payroll_eq_some ⟨3000000, 1⟩ ("2024-01".toList) none none 2024 1
    (by decide) rfl
  have hinv := payroll_total_deductions_and_net_pay_invariant ⟨3000000, 1⟩
    ("2024-01".toList) none none _ hp
  exact ⟨_, hp, hinv.2.1, hinv.2.2⟩

/-! ## C2: non-positive base salary -/

/-- C2 (counterexample).  With `base_salary = 0` the code returns `None`: the
result is absent, not an all-zero `PayrollResult` as claimed. -/
theorem payroll_zero_salary_absent_result :
    calculate_comprehensive_payroll ⟨0, 1⟩ ("2024-01".toList) none none = none := rfl

/-- C2 (amended).  For every employee input with `base_salary ≤ 0`,
`calculate_comprehensive_payroll` short-circuits before the attendance,
insurance, or tax calculators run and returns `None` — an absent result, not
an all-zero `PayrollResult`. -/
theorem payroll_nonpositive_salary_returns_none
    (emp : Employee) (pm : List Char) (att : Option (List AttendanceRecord))
    (alw : Option Allowances) (h : emp.base_salary ≤ 0) :
    calculate_comprehensive_payroll emp pm att alw = none := by
  unfold calculate_comprehensive_payroll
  rw [if_pos h]

theorem payroll_nonpositive_salary_returns_none_witness :
    (Employee.mk (-5) 1).base_salary ≤ 0 ∧
    calculate_comprehensive_payroll ⟨-5, 1⟩ ("2024-01".toList) none none = none :=
  ⟨by decide, payroll_nonpositive_salary_returns_none ⟨-5, 1⟩ ("2024-01".toList) none none
    (by decide)⟩

/-! ## C8: malformed pay period -/

/-- C8 (counterexample).  On the malformed pay period `"202401"` the parse
error is caught by the function-wide `except` and the computation returns
`None` — the malformed period is converted into an absent result, not
propagated to the caller as an exception. -/
theorem payroll_malformed_pay_month_absent_result :
    parsePayMonth ("202401".toList) = none ∧
    calculate_comprehensive_payroll ⟨3000000, 1⟩ ("202401".toList) none none = none :=
  ⟨rfl, rfl⟩

/-- C8 (amended).  For every pay period string rejected by
`year, month = map(int, pay_month.split('-'))`, the payroll computation
returns `None`: the parse failure is caught and surfaced as an absent result
(after a UI error report), and the malformed period is never silently
defaulted to a computed result. -/
theorem payroll_malformed_pay_month_returns_none
    (emp : Employee) (pm : List Char) (att : Option (List AttendanceRecord))
    (alw : Option Allowances) (h : parsePayMonth pm = none) :
    calculate_comprehensive_payroll emp pm att alw = none := by
  unfold calculate_comprehensive_payroll
  split
  · rfl
  · rw [h]

theorem payroll_malformed_pay_month_returns_none_witness :
    parsePayMonth ("2024x01".toList) = none ∧
    calculate_comprehensive_payroll ⟨100, 2⟩ ("2024x01".toList) none none = none :=
  ⟨rfl, payroll_malformed_pay_month_returns_none ⟨100, 2⟩ ("2024x01".toList) none none rfl⟩

/-! ## C7: insurance withholding formulas -/

/-- C7.  In every produced payroll result, the four insurance withholdings
satisfy: national pension = floor of the pension rate times the adjusted
salary clamped to `[pension_min, pension_max]`; health insurance = floor of
adjusted salary times the health rate; long-term care = floor of the
*health-insurance amount* (not the salary) times the long-term-care rate;
employment insurance = floor of adjusted salary times the employment rate —
with the adjusted salary non-negative, so the truncations are floors. -/
theorem payroll_insurance_formulas
    (emp : Employee) (pm : List Char) (att : Option (List AttendanceRecord))
    (alw : Option Allowances) (r : PayrollResult)
    (h : calculate_comprehensive_payroll emp pm att alw = some r) :
    0 ≤ r.adjusted_salary ∧
    r.national_pension = ⌊((min (max r.adjusted_salary pensionMin) pensionMax : ℤ) : ℚ)
      * nationalPensionRate⌋ ∧
    r.health_insurance = ⌊(r.adjusted_salary : ℚ) * healthInsuranceRate⌋ ∧
    r.long_term_care = ⌊(r.health_insurance : ℚ) * longTermCareRate⌋ ∧
    r.employment_insurance = ⌊(r.adjusted_salary : ℚ) * employmentInsuranceRate⌋ := by
  obtain ⟨hb, y, m, -, hr⟩ := payroll_some_inv h
  subst hr
  simp only [payrollBody]
  set adj : ℤ := max 0 (emp.base_salary + sumAllowances (alw.getD defaultAllowances)
    - calculate_unpaid_leave_deduction emp.base_salary (attendanceDeductions att pm).unpaid_days y m
    - calculate_lateness_deduction emp.base_salary (attendanceDeductions att pm).late_hours y m)
    with hadj
  have h0 : (0:ℤ) ≤ adj := le_max_left _ _
  have h0q : (0:ℚ) ≤ (adj : ℚ) := by exact_mod_cast h0
  have hpb : (0:ℤ) ≤ min (max adj pensionMin) pensionMax := by
    have : (0:ℤ) ≤ pensionMin := by norm_num [pensionMin]
    have := le_max_right adj pensionMin
    have : (0:ℤ) ≤ max adj pensionMin := le_trans ‹(0:ℤ) ≤ pensionMin› ‹pensionMin ≤ max adj pensionMin›
    have : (0:ℤ) ≤ pensionMax := by norm_num [pensionMax]
    omega
  refine ⟨h0, ?_, ?_, ?_, ?_⟩
  · rw [truncQ_eq_floor]
    exact mul_nonneg (by exact_mod_cast hpb) (by norm_num [nationalPensionRate])
  · rw [truncQ_eq_floor]
    exact mul_nonneg h0q (by norm_num [healthInsuranceRate])
  · rw [truncQ_eq_floor]
    refine mul_nonneg ?_ (by norm_num [longTermCareRate])
    have := truncQ_nonneg (mul_nonneg h0q (by norm_num [healthInsuranceRate] :
      (0:ℚ) ≤ healthInsuranceRate))
    exact_mod_cast this
  · rw [truncQ_eq_floor]
    exact mul_nonneg h0q (by norm_num [employmentInsuranceRate])

theorem payroll_insurance_formulas_witness :
    ∃ r, calculate_comprehensive_payroll ⟨3000000, 1⟩ ("2024-02".toList) none none = some r ∧
      0 ≤ r.adjusted_salary ∧
      r.national_pension = ⌊((min (max r.adjusted_salary pensionMin) pensionMax : ℤ) : ℚ)
        * nationalPensionRate⌋ ∧
      r.long_term_care = ⌊(r.health_insurance : ℚ) * longTermCareRate⌋ := by
  have hp := payroll_eq_some ⟨3000000, 1⟩ ("2024-02".toList) none none 2024 2
    (by decide) rfl
  have hi := payroll_insurance_formulas ⟨3000000, 1⟩ ("2024-02".toList) none none _ hp
  exact ⟨_, hp, hi.1, hi.2.1, hi.2.2.2.1⟩

/-! ## C9: unconditional pension floor, negative net pay -/

/-- C9.  A concrete input with positive base salary whose attendance
deductions absorb the entire gross pay: adjusted salary is 0, yet the
national pension withholding is still `floor(pension_min * pension_rate)` =
18,000 because the pension-base floor applies unconditionally — so total
deductions (328,000) exceed gross pay (230,000) and net pay is −98,000;
the result is not clamped at zero net pay. -/
theorem payroll_pension_floor_negative_net_pay :
    ∃ r, calculate_comprehensive_payroll ⟨230000, 1⟩ ("2024-01".toList)
        (some (List.replicate 31 ⟨.unpaidLeave, none, 0⟩)) (some zeroAllowances) = some r ∧
      r.adjusted_salary = 0 ∧
      r.national_pension = truncQ ((pensionMin : ℚ) * nationalPensionRate) ∧
      r.national_pension = 18000 ∧
      r.total_deductions = 328000 ∧
      230000 + sumAllowances zeroAllowances < r.total_deductions ∧
      r.net_pay = -98000 := by
  have hded : get_employee_deductions (List.replicate 31 ⟨.unpaidLeave, none, 0⟩)
      ("2024-01".toList) = ⟨31, 0, 0, 0⟩ := by
    have hparse : parsePayMonth ("2024-01".toList) = some (2024, 1) := rfl
    have hcnt : (List.replicate 31 (⟨.unpaidLeave, none, 0⟩ : AttendanceRecord)).countP
        (fun r => decide (r.status = .unpaidLeave)) = 31 := by decide
    have hlh : lateHoursOfMonth (List.replicate 31 ⟨.unpaidLeave, none, 0⟩) = 0 := by
      simp [lateHoursOfMonth, List.map_replicate, List.sum_replicate,
        show lateContribution ⟨.unpaidLeave, none, 0⟩ = 0 from rfl,
        show earlyLeaveContribution ⟨.unpaidLeave, none, 0⟩ = 0 from rfl]
    simp only [get_employee_deductions, hparse, hcnt, hlh]
    norm_num [validYM, round2]
  have hbody : payrollBody 230000 1 zeroAllowances ⟨31, 0, 0, 0⟩ 2024 1 =
      { base_salary := 230000, performance_bonus := 0, attendance_allowance := 0,
        meal_allowance := 0, holiday_allowance := 0, position_allowance := 0,
        special_duty_allowance := 0, overtime_allowance := 0, skill_allowance := 0,
        annual_leave_allowance := 0, other_allowance := 0, adjusted_salary := 0,
        unpaid_days := 31, unpaid_deduction := 310000, late_hours := 0,
        lateness_deduction := 0, national_pension := 18000, health_insurance := 0,
        long_term_care := 0, employment_insurance := 0, income_tax := 0,
        resident_tax := 0, total_deductions := 328000, net_pay := -98000,
        taxable_income := 0, effective_tax_rate := 0, salary_income_deduction := 0,
        personal_deductions := 1500000, child_tax_credit := 0,
        annual_income_tax_before_credit := 0, annual_income_tax_after_credit := 0 } := by
    have hw : get_workdays_in_month 2024 1 = 23 := by decide
    have hup : calculate_unpaid_leave_deduction 230000 31 2024 1 = 310000 := by
      unfold calculate_unpaid_leave_deduction
      rw [if_neg (by norm_num), hw]
      norm_num [truncQ]
    have hlate : calculate_lateness_deduction 230000 0 2024 1 = 0 := by
      unfold calculate_lateness_deduction
      rw [if_pos le_rfl]
    have htax : calculate_correct_taxes_for_payroll 0 1 =
        { income_tax := 0, resident_tax := 0, taxable_income := 0, effective_rate := 0,
          salary_income_deduction := 0, personal_deductions := 1500000, child_tax_credit := 0,
          annual_income_tax_before_credit := 0, annual_income_tax_after_credit := 0 } := by
      norm_num [calculate_correct_taxes_for_payroll, calculate_salary_income_deduction,
        truncQ, calculate_personal_deductions, calculate_correct_progressive_income_tax,
        calculate_child_tax_credit]
    norm_num [payrollBody, hup, hlate, htax, sumAllowances, zeroAllowances, truncQ,
      pensionMin, pensionMax, nationalPensionRate, healthInsuranceRate, longTermCareRate,
      employmentInsuranceRate, max_def, min_def]
  have hp : calculate_comprehensive_payroll ⟨230000, 1⟩ ("2024-01".toList)
      (some (List.replicate 31 ⟨.unpaidLeave, none, 0⟩)) (some zeroAllowances) =
      some (payrollBody 230000 1 zeroAllowances
        (get_employee_deductions (List.replicate 31 ⟨.unpaidLeave, none, 0⟩)
          ("2024-01".toList)) 2024 1) :=
    payroll_eq_some ⟨230000, 1⟩ ("2024-01".toList)
      (some (List.replicate 31 ⟨.unpaidLeave, none, 0⟩)) (some zeroAllowances) 2024 1
      (by decide) rfl
  rw [hded, hbody] at hp
  refine ⟨_, hp, rfl, ?_, rfl, rfl, ?_, rfl⟩
  · norm_num [truncQ, pensionMin, nationalPensionRate]
  · norm_num [sumAllowances, zeroAllowances]

/-! ## C3: annual leave -/

/-- Tenure `(evaluation_date - hire_date).days / 365.25`, the tenure measure used by
both `calculate_annual_leave` and `calculate_severance_pay`. -/
def tenureYears (hire cur : Date) : ℚ :=
  ((toOrdinal cur - toOrdinal hire : ℤ) : ℚ) / (36525/100)

/-- C3 (counterexample).  At exactly one year of tenure — a hire-date
anniversary spanning 365 days, here 2023-01-01 to 2024-01-01 — the tenure
measure 365/365.25 falls below 1, so the code returns the 12 elapsed months,
not the claimed 15; likewise a three-year anniversary spanning no leap day
(2025-01-01 to 2028-01-01, 1095 days) returns 15, not the claimed 16. -/
theorem annual_leave_exact_year_counterexample :
    calculate_annual_leave ⟨2023, 1, 1⟩ ⟨2024, 1, 1⟩ = 12 ∧
    calculate_annual_leave ⟨2023, 1, 1⟩ ⟨2024, 1, 1⟩ ≠ 15 ∧
    calculate_annual_leave ⟨2025, 1, 1⟩ ⟨2028, 1, 1⟩ = 15 ∧
    calculate_annual_leave ⟨2025, 1, 1⟩ ⟨2028, 1, 1⟩ ≠ 16 := by
  have h1 : toOrdinal ⟨2024, 1, 1⟩ - toOrdinal ⟨2023, 1, 1⟩ = 365 := by decide
  have h2 : toOrdinal ⟨2028, 1, 1⟩ - toOrdinal ⟨2025, 1, 1⟩ = 1095 := by decide
  have e1 : calculate_annual_leave ⟨2023, 1, 1⟩ ⟨2024, 1, 1⟩ = 12 := by
    simp only [calculate_annual_leave, h1]
    norm_num
  have e2 : calculate_annual_leave ⟨2025, 1, 1⟩ ⟨2028, 1, 1⟩ = 15 := by
    simp only [calculate_annual_leave, h2]
    norm_num [min_def]
  exact ⟨e1, by rw [e1]; decide, e2, by rw [e2]; decide⟩

/-- C3 (amended).  `calculate_annual_leave` returns the calendar-month
difference floored at 0 when tenure (days/365.25) is below 1, and
`15 + min(10, floor((tenure_years - 1)/2))` otherwise; entitlement at the
hire date is 0; a one-year anniversary spanning 366 days yields 15 (one
spanning 365 days yields 12); a three-year anniversary spanning a leap day
(1096 days) yields 16 (1095 days yields 15); and any tenure of 25 years or
more yields the cap 25. -/
theorem annual_leave_amended_formula :
    (∀ hire cur : Date,
      (tenureYears hire cur < 1 →
        calculate_annual_leave hire cur
          = max 0 ((cur.year - hire.year) * 12 + (cur.month - hire.month))) ∧
      (1 ≤ tenureYears hire cur →
        calculate_annual_leave hire cur
          = 15 + min 10 ⌊(tenureYears hire cur - 1) / 2⌋)) ∧
    (∀ d : Date, calculate_annual_leave d d = 0) ∧
    calculate_annual_leave ⟨2024, 1, 1⟩ ⟨2025, 1, 1⟩ = 15 ∧
    calculate_annual_leave ⟨2023, 1, 1⟩ ⟨2024, 1, 1⟩ = 12 ∧
    calculate_annual_leave ⟨2022, 1, 1⟩ ⟨2025, 1, 1⟩ = 16 ∧
    calculate_annual_leave ⟨2025, 1, 1⟩ ⟨2028, 1, 1⟩ = 15 ∧
    (∀ hire cur : Date, 25 ≤ tenureYears hire cur → calculate_annual_leave hire cur = 25) := by
  have hgen : ∀ hire cur : Date,
      (tenureYears hire cur < 1 →
        calculate_annual_leave hire cur
          = max 0 ((cur.year - hire.year) * 12 + (cur.month - hire.month))) ∧
      (1 ≤ tenureYears hire cur →
        calculate_annual_leave hire cur
          = 15 + min 10 ⌊(tenureYears hire cur - 1) / 2⌋) := by
    intro hire cur
    constructor
    · intro h
      unfold tenureYears at h
      simp only [calculate_annual_leave]
      rw [if_pos h]
    · intro h
      unfold tenureYears at h
      simp only [calculate_annual_leave]
      rw [if_neg (not_lt.mpr h), min_comm]
      rfl
  refine ⟨hgen, ?_, ?_, ?_, ?_, ?_, ?_⟩
  · intro d
    have := (hgen d d).1 (by unfold tenureYears; norm_num)
    rw [this]
    simp
  · have h1 : toOrdinal ⟨2025, 1, 1⟩ - toOrdinal ⟨2024, 1, 1⟩ = 366 := by decide
    simp only [calculate_annual_leave, h1]
    norm_num [min_def]
  · have h1 : toOrdinal ⟨2024, 1, 1⟩ - toOrdinal ⟨2023, 1, 1⟩ = 365 := by decide
    simp only [calculate_annual_leave, h1]
    norm_num
  · have h1 : toOrdinal ⟨2025, 1, 1⟩ - toOrdinal ⟨2022, 1, 1⟩ = 1096 := by decide
    simp only [calculate_annual_leave, h1]
    norm_num [min_def]
  · have h1 : toOrdinal ⟨2028, 1, 1⟩ - toOrdinal ⟨2025, 1, 1⟩ = 1095 := by decide
    simp only [calculate_annual_leave, h1]
    norm_num [min_def]
  · intro hire cur h
    have h1 : (1:ℚ) ≤ tenureYears hire cur := by linarith
    rw [(hgen hire cur).2 h1]
    have h12 : (12:ℤ) ≤ ⌊(tenureYears hire cur - 1) / 2⌋ := by
      rw [Int.le_floor]
      push_cast
      linarith
    rw [min_eq_left (by omega)]
    norm_num

theorem annual_leave_amended_formula_witness :
    calculate_annual_leave ⟨2020, 5, 10⟩ ⟨2020, 11, 10⟩ = 6 ∧
    calculate_annual_leave ⟨1990, 1, 1⟩ ⟨2020, 1, 1⟩ = 25 := by
  have h := annual_leave_amended_formula
  constructor
  · have hd : toOrdinal ⟨2020, 11, 10⟩ - toOrdinal ⟨2020, 5, 10⟩ = 184 := by decide
    have hm := (h.1 ⟨2020, 5, 10⟩ ⟨2020, 11, 10⟩).1
      (by unfold tenureYears; rw [hd]; norm_num)
    rw [hm]
    norm_num
  · exact h.2.2.2.2.2.2 ⟨1990, 1, 1⟩ ⟨2020, 1, 1⟩
      (by unfold tenureYears
          rw [show toOrdinal ⟨2020, 1, 1⟩ - toOrdinal ⟨1990, 1, 1⟩ = 10957 from by decide]
          norm_num)

/-! ## C4: severance pay -/

/-- C4.  `calculate_severance_pay` is ineligible with severance 0 whenever
tenure (days/365.25) is below one year, and otherwise pays
`floor(tenure_years) * 30 * (mean(recent_salaries) / 30)` with no proration
of the partial final year; a 364-day tenure yields 0 with the ineligibility
status, and a 366-day tenure at constant monthly salary `S` yields exactly
`S`. -/
theorem severance_pay_formula (hire res : Date) (sal : List ℤ) (hne : sal ≠ []) :
    (tenureYears hire res < 1 →
      (calculate_severance_pay hire res sal).severance_pay = 0 ∧
      (calculate_severance_pay hire res sal).eligible = false) ∧
    (1 ≤ tenureYears hire res →
      (calculate_severance_pay hire res sal).severance_pay
        = (⌊tenureYears hire res⌋ : ℚ) * 30 * ((((sal.sum : ℤ) : ℚ) / (sal.length : ℚ)) / 30) ∧
      (calculate_severance_pay hire res sal).eligible = true) ∧
    ((calculate_severance_pay ⟨2023, 1, 1⟩ ⟨2023, 12, 31⟩ sal).work_days = 364 ∧
      (calculate_severance_pay ⟨2023, 1, 1⟩ ⟨2023, 12, 31⟩ sal).severance_pay = 0 ∧
      (calculate_severance_pay ⟨2023, 1, 1⟩ ⟨2023, 12, 31⟩ sal).eligible = false) ∧
    (∀ S : ℤ, (calculate_severance_pay ⟨2023, 1, 1⟩ ⟨2024, 1, 2⟩ [S, S, S]).work_days = 366 ∧
      (calculate_severance_pay ⟨2023, 1, 1⟩ ⟨2024, 1, 2⟩ [S, S, S]).severance_pay = S) := by
  have h364 : toOrdinal ⟨2023, 12, 31⟩ - toOrdinal ⟨2023, 1, 1⟩ = 364 := by decide
  have h366 : toOrdinal ⟨2024, 1, 2⟩ - toOrdinal ⟨2023, 1, 1⟩ = 366 := by decide
  refine ⟨?_, ?_, ?_, ?_⟩
  · intro h
    unfold tenureYears at h
    simp only [calculate_severance_pay]
    rw [if_pos h]
    exact ⟨rfl, rfl⟩
  · intro h
    have h0 : ¬ tenureYears hire res < 1 := not_lt.mpr h
    unfold tenureYears at h h0
    simp only [calculate_severance_pay]
    rw [if_neg h0, if_pos hne]
    refine ⟨?_, rfl⟩
    have : truncQ (((toOrdinal res - toOrdinal hire : ℤ) : ℚ) / (36525/100))
        = ⌊((toOrdinal res - toOrdinal hire : ℤ) : ℚ) / (36525/100)⌋ :=
      truncQ_eq_floor (by linarith)
    rw [this]
    rfl
  · simp only [calculate_severance_pay, h364]
    rw [if_pos (by norm_num : ((364:ℤ) : ℚ) / (36525/100) < 1)]
    exact ⟨rfl, rfl, rfl⟩
  · intro S
    simp only [calculate_severance_pay, h366]
    rw [if_neg (by norm_num : ¬ ((366:ℤ) : ℚ) / (36525/100) < 1)]
    refine ⟨rfl, ?_⟩
    rw [if_pos (by simp : ([S, S, S] : List ℤ) ≠ [])]
    have ht : truncQ (((366:ℤ) : ℚ) / (36525/100)) = 1 := by norm_num [truncQ]
    rw [ht]
    have hsum : (([S, S, S] : List ℤ).sum : ℚ) = 3 * (S : ℚ) := by
      simp [List.sum_cons]
      ring
    have hlen : (([S, S, S] : List ℤ).length : ℚ) = 3 := by simp
    rw [hsum, hlen]
    ring

theorem severance_pay_formula_witness :
    ([3000000] : List ℤ) ≠ [] ∧
    1 ≤ tenureYears ⟨2020, 1, 1⟩ ⟨2022, 1, 1⟩ ∧
    (calculate_severance_pay ⟨2020, 1, 1⟩ ⟨2022, 1, 1⟩ [3000000]).severance_pay
      = (⌊tenureYears ⟨2020, 1, 1⟩ ⟨2022, 1, 1⟩⌋ : ℚ) * 30
        * (((([3000000] : List ℤ).sum : ℚ) / (([3000000] : List ℤ).length : ℚ)) / 30) := by
  have hten : 1 ≤ tenureYears ⟨2020, 1, 1⟩ ⟨2022, 1, 1⟩ := by
    unfold tenureYears
    rw [show toOrdinal ⟨2022, 1, 1⟩ - toOrdinal ⟨2020, 1, 1⟩ = 731 from by decide]
    norm_num
  exact ⟨by simp,
    hten, ((severance_pay_formula ⟨2020, 1, 1⟩ ⟨2022, 1, 1⟩ [3000000] (by simp)).2.1 hten).1⟩

/-! ## C10: workday count lower bound -/

theorem countWeekdays28 (a : ℤ) :
    (List.range 28).countP (fun k : ℕ => decide ((a + (k : ℤ)) % 7 < 5)) = 20 := by
  have hcongr : (List.range 28).countP (fun k : ℕ => decide ((a + (k : ℤ)) % 7 < 5))
      = (List.range 28).countP (fun k : ℕ => decide ((a % 7 + (k : ℤ)) % 7 < 5)) := by
    refine List.countP_congr ?_
    intro k _
    simp only [decide_eq_true_eq]
    constructor <;> intro h <;> omega
  rw [hcongr]
  have h0 : 0 ≤ a % 7 := Int.emod_nonneg a (by norm_num)
  have h7 : a % 7 < 7 := Int.emod_lt_of_pos a (by norm_num)
  set w := a % 7 with hw
  clear_value w
  interval_cases w <;> decide

theorem countWeekdays_ge (a : ℤ) (n : ℕ) (h : 28 ≤ n) :
    20 ≤ (List.range n).countP (fun k : ℕ => decide ((a + (k : ℤ)) % 7 < 5)) := by
  obtain ⟨t, rfl⟩ : ∃ t, n = 28 + t := ⟨n - 28, by omega⟩
  rw [List.range_add, List.countP_append, countWeekdays28 a]
  exact Nat.le_add_right _ _

/-- Every month of every valid year spans at least 28 days. -/
theorem month_length_ge_28 (y m : ℤ) (h3 : 1 ≤ m) (h4 : m ≤ 12) :
    28 ≤ (if m < 12 then toOrdinal ⟨y, m + 1, 1⟩ - 1 else toOrdinal ⟨y, 12, 31⟩) + 1
      - toOrdinal ⟨y, m, 1⟩ := by
  interval_cases m <;>
    simp only [toOrdinal, cumDays] <;>
    norm_num <;>
    split_ifs <;>
    omega

/-- The weekday count over one month's day range, bounded below via
`countWeekdays_ge`. -/
theorem countWeekdays_month (first last : ℤ) (h : 28 ≤ last + 1 - first) :
    20 ≤ (((List.range (last + 1 - first).toNat).countP
      (fun k : ℕ => decide ((first + (k : ℤ) - 1) % 7 < 5))) : ℤ) := by
  have hcongr : (List.range (last + 1 - first).toNat).countP
        (fun k : ℕ => decide ((first + (k : ℤ) - 1) % 7 < 5))
      = (List.range (last + 1 - first).toNat).countP
        (fun k : ℕ => decide (((first - 1) + (k : ℤ)) % 7 < 5)) := by
    refine List.countP_congr ?_
    intro k _
    simp only [decide_eq_true_eq]
    constructor <;> intro hlt <;> omega
  rw [hcongr]
  have h28 : 28 ≤ (last + 1 - first).toNat := by omega
  exact_mod_cast countWeekdays_ge (first - 1) (last + 1 - first).toNat h28

/-- Lemma: `get_workdays_in_month` is at least 20 on every input: a month of a valid
year spans at least 28 days, any 28 consecutive days contain exactly 20
weekdays, and the fallback path returns 22. -/
theorem get_workdays_in_month_ge_20 (y m : ℤ) : 20 ≤ get_workdays_in_month y m := by
  unfold get_workdays_in_month
  split_ifs with hv hm
  · obtain ⟨hy1, hy2, hm1, hm2⟩ := hv
    have hlen := month_length_ge_28 y m hm1 hm2
    rw [if_pos hm] at hlen
    exact countWeekdays_month (toOrdinal ⟨y, m, 1⟩) (toOrdinal ⟨y, m + 1, 1⟩ - 1) hlen
  · obtain ⟨hy1, hy2, hm1, hm2⟩ := hv
    have hlen := month_length_ge_28 y m hm1 hm2
    rw [if_neg hm] at hlen
    exact countWeekdays_month (toOrdinal ⟨y, m, 1⟩) (toOrdinal ⟨y, 12, 31⟩) hlen
  · norm_num

/-- C10.  For every valid year and month, `get_workdays_in_month` returns at
least 20 weekdays; in particular the divisors `workdays` and `workdays * 8`
used by the unpaid-leave and lateness deductions are nonzero, so their
guarded error branches cannot be reached by a division by zero. -/
theorem get_workdays_in_month_positive (y m : ℤ)
    (h1 : 1 ≤ y) (h2 : y ≤ 9999) (h3 : 1 ≤ m) (h4 : m ≤ 12) :
    20 ≤ get_workdays_in_month y m ∧
    get_workdays_in_month y m ≠ 0 ∧
    ((get_workdays_in_month y m : ℚ)) ≠ 0 ∧
    ((get_workdays_in_month y m : ℚ)) * 8 ≠ 0 := by
  have h := get_workdays_in_month_ge_20 y m
  refine ⟨h, by omega, ?_, ?_⟩
  · have : (0:ℚ) < (get_workdays_in_month y m : ℚ) := by exact_mod_cast by omega
    exact ne_of_gt this
  · have : (0:ℚ) < (get_workdays_in_month y m : ℚ) * 8 := by
      have : (0:ℚ) < (get_workdays_in_month y m : ℚ) := by exact_mod_cast by omega
      linarith
    exact ne_of_gt this

theorem get_workdays_in_month_positive_witness :
    (1:ℤ) ≤ 2024 ∧ (2024:ℤ) ≤ 9999 ∧ (1:ℤ) ≤ 2 ∧ (2:ℤ) ≤ 12 ∧
    20 ≤ get_workdays_in_month 2024 2 ∧ get_workdays_in_month 2024 2 ≠ 0 :=
  ⟨by norm_num, by norm_num, by norm_num, by norm_num,
    (get_workdays_in_month_positive 2024 2 (by norm_num) (by norm_num) (by norm_num)
      (by norm_num)).1,
    (get_workdays_in_month_positive 2024 2 (by norm_num) (by norm_num) (by norm_num)
      (by norm_num)).2.1⟩

/-! ## C6: lateness threshold and early-leave shortfall -/

/-- C6 (counterexample).  A 30-minute late arrival does contribute 0.5 late
hours, but the resulting deduction is `int(base_salary / (workdays * 8) * 0.5)`,
which is 0 — not positive — for a small base salary (here 8 currency units in
January 2024): the claimed positivity fails. -/
theorem lateness_thirty_minutes_zero_deduction :
    (get_employee_deductions [⟨.late, some (9, 30, 0), 8⟩] ("2024-01".toList)).late_hours
      = 1/2 ∧
    calculate_lateness_deduction 8
      ((get_employee_deductions [⟨.late, some (9, 30, 0), 8⟩] ("2024-01".toList)).late_hours)
      2024 1 = 0 := by
  have hlc : lateContribution ⟨.late, some (9, 30, 0), 8⟩ = 1/2 := by
    simp [lateContribution, timeLater]
    norm_num
  have hlh : lateHoursOfMonth [⟨.late, some (9, 30, 0), 8⟩] = 1/2 := by
    simp [lateHoursOfMonth, hlc, earlyLeaveContribution]
  have hb : (get_employee_deductions [⟨.late, some (9, 30, 0), 8⟩]
      ("2024-01".toList)).late_hours = 1/2 := by
    simp only [get_employee_deductions,
      show parsePayMonth ("2024-01".toList) = some (2024, 1) from rfl, hlh]
    norm_num [validYM, round2, round_eq]
  refine ⟨hb, ?_⟩
  rw [hb]
  unfold calculate_lateness_deduction
  rw [if_neg (by norm_num), show get_workdays_in_month 2024 1 = 23 from by decide]
  norm_num [truncQ]

/-- C6 (amended).  Per-record contributions of the month's deduction
computation: a late record less than 30 minutes past the 09:00 standard
start contributes 0 late hours; a late record 30 or more minutes past
contributes its full lateness in hours (minutes/60); an early-leave record
contributes `max(0, 8 - actual_hours)` hours.  A single 29-minute-late
record yields a zero lateness deduction for every salary and month, while a
single 30-minute-late record yields the deduction
`floor(base_salary / (workdays * 8) * 0.5)`, which is positive whenever
`base_salary ≥ 16 * workdays` (the truncation sends smaller salaries'
deductions to 0). -/
theorem lateness_threshold_amended :
    (∀ (t : ℤ × ℤ × ℤ) (ah : ℚ), t.1 * 60 + t.2.1 - 540 < 30 →
      lateContribution ⟨.late, some t, ah⟩ = 0) ∧
    (∀ (t : ℤ × ℤ × ℤ) (ah : ℚ), 0 ≤ t.2.1 → t.2.1 < 60 → 0 ≤ t.2.2 →
      30 ≤ t.1 * 60 + t.2.1 - 540 →
      lateContribution ⟨.late, some t, ah⟩ = ((t.1 * 60 + t.2.1 - 540 : ℤ) : ℚ) / 60) ∧
    (∀ (cin : Option (ℤ × ℤ × ℤ)) (ah : ℚ),
      earlyLeaveContribution ⟨.earlyLeave, cin, ah⟩ = max 0 (8 - ah)) ∧
    (∀ (base y m : ℤ) (pm : List Char),
      calculate_lateness_deduction base
        ((get_employee_deductions [⟨.late, some (9, 29, 0), 8⟩] pm).late_hours) y m = 0) ∧
    (get_employee_deductions [⟨.late, some (9, 30, 0), 8⟩] ("2024-01".toList)).late_hours
      = 1/2 ∧
    (∀ base y m : ℤ, 16 * get_workdays_in_month y m ≤ base →
      calculate_lateness_deduction base (1/2) y m
        = ⌊(base : ℚ) / ((get_workdays_in_month y m : ℚ) * 8) * (1/2)⌋ ∧
      0 < calculate_lateness_deduction base (1/2) y m) := by
  have hredL : ∀ (t : ℤ × ℤ × ℤ) (ah : ℚ), lateContribution ⟨.late, some t, ah⟩
      = (if timeLater t (9, 0, 0) = true then
          (if 30 ≤ t.1 * 60 + t.2.1 - (9 * 60 + 0) then
            ((t.1 * 60 + t.2.1 - (9 * 60 + 0) : ℤ) : ℚ) / 60 else 0)
         else 0) := by
    intro t ah
    simp [lateContribution]
  refine ⟨?_, ?_, ?_, ?_, ?_, ?_⟩
  · intro t ah h
    rw [hredL]
    cases ht : timeLater t (9, 0, 0)
    · simp
    · rw [if_pos rfl, if_neg (by omega)]
  · intro t ah hm0 hm60 hs0 h
    have hlater : timeLater t (9, 0, 0) = true := by
      simp [timeLater]
      omega
    rw [hredL, if_pos hlater, if_pos (by omega)]
    norm_num
  · intro cin ah
    have hredE : earlyLeaveContribution ⟨.earlyLeave, cin, ah⟩
        = if ah < 8 then 8 - ah else 0 := by
      simp [earlyLeaveContribution]
    rw [hredE]
    split_ifs with h
    · exact (max_eq_right (by linarith)).symm
    · exact (max_eq_left (by linarith)).symm
  · intro base y m pm
    have hlh : (get_employee_deductions [⟨.late, some (9, 29, 0), 8⟩] pm).late_hours = 0 := by
      rcases hp : parsePayMonth pm with _ | ⟨y', m'⟩
      · simp [get_employee_deductions, hp, zeroBundle]
      · have hc : lateHoursOfMonth [⟨.late, some (9, 29, 0), 8⟩] = 0 := by
          simp [lateHoursOfMonth, lateContribution, earlyLeaveContribution, timeLater]
        simp only [get_employee_deductions, hp, hc]
        split_ifs <;> norm_num [zeroBundle, round2]
    rw [hlh]
    unfold calculate_lateness_deduction
    rw [if_pos le_rfl]
  · have hlc : lateContribution ⟨.late, some (9, 30, 0), 8⟩ = 1/2 := by
      rw [hredL]
      norm_num [timeLater]
    have hlh : lateHoursOfMonth [⟨.late, some (9, 30, 0), 8⟩] = 1/2 := by
      simp [lateHoursOfMonth, hlc, earlyLeaveContribution]
    simp only [get_employee_deductions,
      show parsePayMonth ("2024-01".toList) = some (2024, 1) from rfl, hlh]
    norm_num [validYM, round2, round_eq]
  · intro base y m h
    have hw20 := get_workdays_in_month_ge_20 y m
    have hwQ : (0:ℚ) < (get_workdays_in_month y m : ℚ) := by exact_mod_cast by omega
    have harg : (base : ℚ) / ((get_workdays_in_month y m : ℚ) * 8) * (1/2)
        = (base : ℚ) / ((get_workdays_in_month y m : ℚ) * 16) := by ring
    have hone : (1:ℚ) ≤ (base : ℚ) / ((get_workdays_in_month y m : ℚ) * 16) := by
      rw [le_div_iff₀ (by linarith)]
      have hb : ((16 * get_workdays_in_month y m : ℤ) : ℚ) ≤ (base : ℚ) := by exact_mod_cast h
      push_cast at hb
      linarith
    have hpos : (0:ℚ) ≤ (base : ℚ) / ((get_workdays_in_month y m : ℚ) * 8) * (1/2) := by
      rw [harg]; linarith
    unfold calculate_lateness_deduction
    rw [if_neg (by norm_num)]
    refine ⟨truncQ_eq_floor hpos, ?_⟩
    rw [truncQ_eq_floor hpos]
    have hfl : (1:ℤ) ≤ ⌊(base : ℚ) / ((get_workdays_in_month y m : ℚ) * 8) * (1/2)⌋ := by
      rw [Int.le_floor, harg]
      exact_mod_cast hone
    omega

theorem lateness_threshold_amended_witness :
    lateContribution ⟨.late, some (9, 29, 0), (8:ℚ)⟩ = 0 ∧
    lateContribution ⟨.late, some (9, 45, 0), (8:ℚ)⟩ = (45 : ℚ) / 60 ∧
    earlyLeaveContribution ⟨.earlyLeave, none, (6:ℚ)⟩ = max 0 (8 - 6) ∧
    calculate_lateness_deduction 3000000 (1/2) 2024 1
      = ⌊(3000000 : ℚ) / ((get_workdays_in_month 2024 1 : ℚ) * 8) * (1/2)⌋ ∧
    0 < calculate_lateness_deduction 3000000 (1/2) 2024 1 := by
  have h := lateness_threshold_amended
  refine ⟨h.1 (9, 29, 0) 8 (by decide), ?_, h.2.2.1 none 6, ?_, ?_⟩
  · have h45 := h.2.1 (9, 45, 0) 8 (by decide) (by decide) (by decide) (by decide)
    rw [h45]
    norm_num
  · exact (h.2.2.2.2.2 3000000 2024 1 (by decide)).1
  · exact (h.2.2.2.2.2 3000000 2024 1 (by decide)).2

/-! ## C5: monotonicity of the income-tax engine -/

theorem truncQ_le_self {q : ℚ} (h : 0 ≤ q) : (truncQ q : ℚ) ≤ q := by
  rw [truncQ_eq_floor h]; exact Int.floor_le q

theorem truncQ_gt_sub_one {q : ℚ} (h : 0 ≤ q) : q - 1 < (truncQ q : ℚ) := by
  rw [truncQ_eq_floor h]; exact Int.sub_one_lt_floor q

/-- Difference bound for truncations of non-negative rationals. -/
theorem truncQ_sub_truncQ_le {x y : ℚ} {k : ℤ} (hx : 0 ≤ x) (hy : 0 ≤ y)
    (h : y - x ≤ (k : ℚ)) : truncQ y - truncQ x ≤ k := by
  have h1 : (truncQ y : ℚ) ≤ y := truncQ_le_self hy
  have h2 : x - 1 < (truncQ x : ℚ) := truncQ_gt_sub_one hx
  have h3 : ((truncQ y - truncQ x : ℤ) : ℚ) < (k : ℚ) + 1 := by push_cast; linarith
  have h4 : truncQ y - truncQ x < k + 1 := by exact_mod_cast h3
  omega

/-- The salary-income deduction grows at most as fast as the annual gross:
all five marginal deduction rates are below 1 and the schedule is continuous
at its tier boundaries. -/
theorem calculate_salary_income_deduction_le {g1 g2 : ℤ} (h0 : 0 ≤ g1) (h12 : g1 ≤ g2) :
    calculate_salary_income_deduction g2 - calculate_salary_income_deduction g1 ≤ g2 - g1 := by
  have h0q : (0:ℚ) ≤ (g1 : ℚ) := by exact_mod_cast h0
  have h12q : (g1 : ℚ) ≤ (g2 : ℚ) := by exact_mod_cast h12
  unfold calculate_salary_income_deduction
  split_ifs <;>
    exact truncQ_sub_truncQ_le
      (by qify at *; linarith) (by qify at *; linarith) (by qify at *; linarith)

/-- Well-formedness of a bracket list relative to the previous bound:
ascending upper bounds and non-negative rates, as the loop of
`calculate_correct_progressive_income_tax` assumes. -/
def bracketsMono : ℚ → List (ℚ × ℚ) → Prop
  | _, [] => True
  | prev, (l, r) :: rest => prev ≤ l ∧ 0 ≤ r ∧ bracketsMono l rest

theorem progressiveTaxGo_nonneg : ∀ (br : List (ℚ × ℚ)) (prev ti : ℚ),
    bracketsMono prev br → prev ≤ ti → 0 ≤ progressiveTaxGo prev ti br := by
  intro br
  induction br with
  | nil =>
    intro prev ti _ h
    simp only [progressiveTaxGo]
    exact mul_nonneg (by linarith) (by norm_num)
  | cons hd tl ih =>
    intro prev ti hbm hpt
    obtain ⟨l, r⟩ := hd
    obtain ⟨hb1, hb2, hb3⟩ := hbm
    simp only [progressiveTaxGo]
    split_ifs with hle
    · exact mul_nonneg (by linarith) hb2
    · push_neg at hle
      exact add_nonneg (mul_nonneg (by linarith) hb2) (ih l ti hb3 (le_of_lt hle))

theorem progressiveTaxGo_mono : ∀ (br : List (ℚ × ℚ)) (prev t1 t2 : ℚ),
    bracketsMono prev br → prev ≤ t1 → t1 ≤ t2 →
    progressiveTaxGo prev t1 br ≤ progressiveTaxGo prev t2 br := by
  intro br
  induction br with
  | nil =>
    intro prev t1 t2 _ hp1 h12
    simp only [progressiveTaxGo]
    have : t1 - prev ≤ t2 - prev := by linarith
    exact mul_le_mul_of_nonneg_right this (by norm_num)
  | cons hd tl ih =>
    intro prev t1 t2 hbm hp1 h12
    obtain ⟨l, r⟩ := hd
    obtain ⟨hb1, hb2, hb3⟩ := hbm
    simp only [progressiveTaxGo]
    split_ifs with ha hb hb
    · exact mul_le_mul_of_nonneg_right (by linarith) hb2
    · push_neg at hb
      have hgo := progressiveTaxGo_nonneg tl l t2 hb3 (le_of_lt hb)
      have hstep : (t1 - prev) * r ≤ (l - prev) * r :=
        mul_le_mul_of_nonneg_right (by linarith) hb2
      linarith
    · push_neg at ha
      linarith
    · push_neg at ha hb
      have := ih l t1 t2 hb3 (le_of_lt ha) h12
      linarith

theorem taxBrackets_mono : bracketsMono 0 taxBrackets := by
  norm_num [bracketsMono, taxBrackets]

theorem progressive_tax_nonneg (ti : ℚ) :
    0 ≤ calculate_correct_progressive_income_tax ti := by
  unfold calculate_correct_progressive_income_tax
  split_ifs with h
  · exact le_rfl
  · push_neg at h
    exact progressiveTaxGo_nonneg taxBrackets 0 ti taxBrackets_mono (le_of_lt h)

theorem progressive_tax_mono {t1 t2 : ℚ} (h : t1 ≤ t2) :
    calculate_correct_progressive_income_tax t1
      ≤ calculate_correct_progressive_income_tax t2 := by
  unfold calculate_correct_progressive_income_tax
  split_ifs with h1 h2 h2
  · exact le_rfl
  · push_neg at h2
    exact progressiveTaxGo_nonneg taxBrackets 0 t2 taxBrackets_mono (le_of_lt h2)
  · push_neg at h1
    linarith
  · push_neg at h1 h2
    exact progressiveTaxGo_mono taxBrackets 0 t1 t2 taxBrackets_mono (le_of_lt h1) h

/-- The `income_tax` field of the tax dictionary, written out. -/
theorem income_tax_eq (s f : ℤ) :
    (calculate_correct_taxes_for_payroll s f).income_tax
      = truncQ ((max 0 (calculate_correct_progressive_income_tax
          ((max 0 (s * 12 - calculate_salary_income_deduction (s * 12)
            - calculate_personal_deductions f) : ℤ) : ℚ)
          - (calculate_child_tax_credit f : ℚ))) / 12) := rfl

/-- C5.  For fixed `household_count ≥ 1` the monthly income tax is
non-decreasing in the adjusted (monthly) salary, and for fixed salary it is
non-increasing in the household count: adding a dependent never increases
the tax. -/
theorem income_tax_monotonicity :
    (∀ f s1 s2 : ℤ, 1 ≤ f → 0 ≤ s1 → s1 ≤ s2 →
      (calculate_correct_taxes_for_payroll s1 f).income_tax
        ≤ (calculate_correct_taxes_for_payroll s2 f).income_tax) ∧
    (∀ s f1 f2 : ℤ, 0 ≤ s → 1 ≤ f1 → f1 ≤ f2 →
      (calculate_correct_taxes_for_payroll s f2).income_tax
        ≤ (calculate_correct_taxes_for_payroll s f1).income_tax) := by
  have key : ∀ (t1 t2 c1 c2 : ℤ), t1 ≤ t2 → c2 ≤ c1 →
      truncQ ((max 0 (calculate_correct_progressive_income_tax (t1 : ℚ) - (c1 : ℚ))) / 12)
        ≤ truncQ ((max 0 (calculate_correct_progressive_income_tax (t2 : ℚ) - (c2 : ℚ))) / 12) := by
    intro t1 t2 c1 c2 ht hc
    have htax := progressive_tax_mono (show (t1:ℚ) ≤ (t2:ℚ) by exact_mod_cast ht)
    have hcq : (c2 : ℚ) ≤ (c1 : ℚ) := by exact_mod_cast hc
    have hafter : max 0 (calculate_correct_progressive_income_tax (t1 : ℚ) - (c1 : ℚ))
        ≤ max 0 (calculate_correct_progressive_income_tax (t2 : ℚ) - (c2 : ℚ)) :=
      max_le_max le_rfl (by linarith)
    have h1 : (0:ℚ) ≤ max 0 (calculate_correct_progressive_income_tax (t1 : ℚ) - (c1 : ℚ)) :=
      le_max_left _ _
    have h2 : (0:ℚ) ≤ max 0 (calculate_correct_progressive_income_tax (t2 : ℚ) - (c2 : ℚ)) :=
      le_max_left _ _
    rw [truncQ_eq_floor (by linarith), truncQ_eq_floor (by linarith)]
    exact Int.floor_le_floor (by linarith)
  constructor
  · intro f s1 s2 hf hs0 hs12
    rw [income_tax_eq, income_tax_eq]
    refine key _ _ _ _ ?_ le_rfl
    have hg0 : 0 ≤ s1 * 12 := by omega
    have hg12 : s1 * 12 ≤ s2 * 12 := by omega
    have hsid := calculate_salary_income_deduction_le hg0 hg12
    have : s1 * 12 - calculate_salary_income_deduction (s1 * 12)
        ≤ s2 * 12 - calculate_salary_income_deduction (s2 * 12) := by omega
    exact max_le_max le_rfl (by omega)
  · intro s f1 f2 hs hf1 hf12
    rw [income_tax_eq, income_tax_eq]
    refine key _ _ _ _ ?_ ?_
    · unfold calculate_personal_deductions
      refine max_le_max le_rfl ?_
      have : f1 * 1500000 ≤ f2 * 1500000 := by omega
      omega
    · unfold calculate_child_tax_credit
      have : max 0 (f1 - 1) ≤ max 0 (f2 - 1) := max_le_max le_rfl (by omega)
      omega

theorem income_tax_monotonicity_witness :
    (1:ℤ) ≤ 1 ∧ (0:ℤ) ≤ 3000000 ∧ (3000000:ℤ) ≤ 3100000 ∧ (1:ℤ) ≤ 2 ∧
    (calculate_correct_taxes_for_payroll 3000000 1).income_tax
      ≤ (calculate_correct_taxes_for_payroll 3100000 1).income_tax ∧
    (calculate_correct_taxes_for_payroll 3000000 2).income_tax
      ≤ (calculate_correct_taxes_for_payroll 3000000 1).income_tax := by
  refine ⟨le_rfl, by norm_num, by norm_num, by norm_num, ?_, ?_⟩
  · exact income_tax_monotonicity.1 1 3000000 3100000 le_rfl (by norm_num) (by norm_num)
  · exact income_tax_monotonicity.2 3000000 1 2 (by norm_num) le_rfl (by norm_num)
